import Mathlib

/-!
Shallow embedding of `setup/terraform/resources/labs/workshop_nifi.py`.

The script is automation glue: sequences of remote SDK calls (NiFi canvas,
NiFi Registry versioning, Schema Registry, Kudu, CDSW) plus one retry loop
in `NiFiWorkshop.teardown`.  We model each remote call as an emitted event,
exceptions as values of `PyExc`, and the teardown retry loop as a
fuel-indexed recursion over an oracle that supplies, for each pass index
and controller id, the outcome of `canvas.schedule_controller(controller, False)`.
-/

namespace WorkshopNifi

/-- A NiFi controller service as seen by `canvas.list_all_controllers`:
only its id and component name matter to the script. -/
structure Controller where
  id : String
  name : String
deriving DecidableEq

/-- Python exceptions as relevant to the script: `ApiException` (from
`nipyapi.nifi.rest`) carries an HTTP status and a body; any other
exception type is represented by its name. -/
inductive PyExc where
  | apiException (status : Nat) (body : String)
  | other (name : String)
deriving DecidableEq

/-- Does the character list `s` start with `pat`? (exact char-by-char). -/
def headMatches : List Char → List Char → Bool
  | [], _ => true
  | _ :: _, [] => false
  | a :: as, b :: bs => a == b && headMatches as bs

/-- Does `pat` occur as a contiguous run inside `s`? -/
def occursInChars (pat : List Char) : List Char → Bool
  | [] => pat.isEmpty
  | b :: bs => headMatches pat (b :: bs) || occursInChars pat bs

/-- Python's `pat in s` substring test on strings. -/
def strIn (pat s : String) : Bool :=
  occursInChars pat.data s.data

/-- The condition of the `except` branch in `teardown`:
`exc.status == 409 and 'is referenced by' in exc.body`. -/
def isConflictErr : Except PyExc Unit → Bool
  | .error (.apiException st body) => st == 409 && strIn "is referenced by" body
  | _ => false

/-- Remote operations issued by the script, one constructor per distinct
call shape.  `sleep` and `createKafkaTopic` are operations the script
*could* issue (via `time.sleep` or a Kafka admin call) but, as the
theorems show, never does; they are in the vocabulary so their absence is
statable.  `createProcessor` records the processor's display name and the
value of its `topic` property when one is set. -/
inductive Ev where
  | schedulePg (running : Bool)
  | scheduleCtrl (cid : String) (running : Bool)
  | nfDeleteAll
  | efmDeleteAll
  | schregDeleteAllSchemas
  | getRegistryClient (name : String)
  | deleteRegistryClient (name : String)
  | nifiregDeleteFlows (name : String)
  | kuduDropTable
  | cdswDeleteAllModelApiKeys
  | sleep (ms : Nat)
  | createKafkaTopic (name : String)
  | createSchema (name : String)
  | getRegistryBucket (name : String)
  | createRegistryBucket (name : String)
  | createRegistryClient (name : String)
  | createProcessGroup (name : String)
  | saveFlowVer
  | getController (name : String)
  | updateController (name : String)
  | createController (cls : String)
  | createPort (name : String)
  | createProcessor (name : String) (topic : Option String)
  | createConnection
  | createFunnel
  | updateConnection
  | scheduleComponents
  | kuduCreateTable
  | cdswGetModelAccessKey
  | cdswCreateModelApiKey
  | updateVariableRegistry (key : String)
deriving DecidableEq

/-- One pass of the teardown `for controller in canvas.list_all_controllers(...)`
loop.  `sched c` is the outcome of `canvas.schedule_controller(c, False)`.
Returns the events issued and either the final value of the `failed` flag
or the exception that escaped the pass.  An `ApiException` is always
caught by the `except` clause (only the 409 / 'is referenced by' case sets
`failed`); any other exception propagates and aborts the pass. -/
def teardownPass (sched : String → Except PyExc Unit) :
    List Controller → List Ev × Except PyExc Bool
  | [] => ([], .ok false)
  | c :: rest =>
    match sched c.id with
    | .ok _ =>
      let r := teardownPass sched rest
      (Ev.scheduleCtrl c.id false :: r.1, r.2)
    | .error (.apiException st body) =>
      let flagged := st == 409 && strIn "is referenced by" body
      let r := teardownPass sched rest
      (Ev.scheduleCtrl c.id false :: r.1, r.2.map (fun f => flagged || f))
    | .error (.other n) => ([Ev.scheduleCtrl c.id false], .error (.other n))

/-- The `failed`-flag outcome of a pass, ignoring the event trace. -/
def passFailed (sched : String → Except PyExc Unit) (cs : List Controller) :
    Except PyExc Bool :=
  (teardownPass sched cs).2

/-- Outcome of the `while True` teardown retry loop, run with a fuel bound
(the Python loop has no bound; `fuelOut` marks executions that are still
running when the fuel is exhausted). -/
inductive LoopOutcome where
  | exited
  | raised (e : PyExc)
  | fuelOut
deriving DecidableEq

/-- The teardown retry loop: pass `k` uses oracle `sched k`.  It exits
when a pass ends with `failed = False`, re-raises an escaped exception,
and otherwise repeats. -/
def teardownLoop (sched : Nat → String → Except PyExc Unit)
    (cs : List Controller) : Nat → Nat → List Ev × LoopOutcome
  | 0, _ => ([], .fuelOut)
  | fuel + 1, k =>
    let p := teardownPass (sched k) cs
    match p.2 with
    | .error e => (p.1, .raised e)
    | .ok true =>
      let r := teardownLoop sched cs fuel (k + 1)
      (p.1 ++ r.1, r.2)
    | .ok false => (p.1, .exited)

/-- Outcome of a whole `teardown` execution. -/
inductive TdOutcome where
  | completed
  | raised (e : PyExc)
  | fuelOut
deriving DecidableEq

/-- Environment of one `teardown` execution: the controllers of the root
process group, the per-pass outcome of `schedule_controller`, and the
outcome of each of the remaining remote calls (`.ok ()` when the call
returns, `.error e` when it raises).  `getRegClientR` returns whether
`versioning.get_registry_client('NiFi Registry')` found a client. -/
structure TeardownWorld where
  controllers : List Controller
  sched : Nat → String → Except PyExc Unit
  schedulePgR : Except PyExc Unit
  nfDeleteAllR : Except PyExc Unit
  efmDeleteAllR : Except PyExc Unit
  schregDeleteR : Except PyExc Unit
  getRegClientR : Except PyExc Bool
  deleteRegClientR : Except PyExc Unit
  nifiregDeleteFlowsR : Except PyExc Unit
  kuduDropTableR : Except PyExc Unit
  cdswDeleteKeysR : Except PyExc Unit

/-- Issue one remote call: emit its event, then either continue with `k`
or abort with the raised exception (subsequent calls are not issued). -/
def seqCall (ev : Ev) (r : Except PyExc Unit) (k : List Ev × TdOutcome) :
    List Ev × TdOutcome :=
  match r with
  | .error e => ([ev], .raised e)
  | .ok _ => (ev :: k.1, k.2)

/-- The straight-line tail of `teardown` after the retry loop:
`nf.delete_all`, `efm.delete_all`, `schreg.delete_all_schemas`, the
conditional registry-client deletion, `nifireg.delete_flows('SensorFlows')`,
`kudu.drop_table()`, `cdsw.delete_all_model_api_keys()`. -/
def teardownTail (w : TeardownWorld) : List Ev × TdOutcome :=
  seqCall Ev.nfDeleteAll w.nfDeleteAllR
    (seqCall Ev.efmDeleteAll w.efmDeleteAllR
      (seqCall Ev.schregDeleteAllSchemas w.schregDeleteR
        (match w.getRegClientR with
         | .error e => ([Ev.getRegistryClient "NiFi Registry"], .raised e)
         | .ok b =>
           let rest :=
             seqCall (Ev.nifiregDeleteFlows "SensorFlows") w.nifiregDeleteFlowsR
               (seqCall Ev.kuduDropTable w.kuduDropTableR
                 (seqCall Ev.cdswDeleteAllModelApiKeys w.cdswDeleteKeysR
                   ([], .completed)))
           if b then
             (Ev.getRegistryClient "NiFi Registry" ::
                (seqCall (Ev.deleteRegistryClient "NiFi Registry")
                  w.deleteRegClientR rest).1,
              (seqCall (Ev.deleteRegistryClient "NiFi Registry")
                  w.deleteRegClientR rest).2)
           else
             (Ev.getRegistryClient "NiFi Registry" :: rest.1, rest.2))))

/-- The method `NiFiWorkshop.teardown`: stop the root process group, run the retry
loop (with fuel), then the straight-line tail. -/
def teardown (w : TeardownWorld) (fuel : Nat) : List Ev × TdOutcome :=
  match w.schedulePgR with
  | .error e => ([Ev.schedulePg false], .raised e)
  | .ok _ =>
    let lp := teardownLoop w.sched w.controllers fuel 0
    match lp.2 with
    | .raised e => (Ev.schedulePg false :: lp.1, .raised e)
    | .fuelOut => (Ev.schedulePg false :: lp.1, .fuelOut)
    | .exited =>
      let t := teardownTail w
      (Ev.schedulePg false :: lp.1 ++ t.1, t.2)

/-- Did `get_registry_client` return a truthy client (so that the branch
`if reg_client: versioning.delete_registry_client(reg_client)` runs)? -/
def regClientFound (w : TeardownWorld) : Bool :=
  match w.getRegClientR with
  | .ok b => b
  | .error _ => false

/-- The value of the `SKIP_CDSW` check `'SKIP_CDSW' in os.environ`,
over an environment given as a list of (variable, value) pairs. -/
def skip_cdsw (env : List (String × String)) : Bool :=
  env.any (fun p => p.1 == "SKIP_CDSW")

/-- Environment of `read_in_schema`: the optional `SCHEMA_FILE` variable,
file existence and contents, and the HTTP GET result (status code, text)
for the schema URI. -/
structure SchemaEnv where
  schemaFileVar : Option String
  fileExists : String → Bool
  fileContents : String → String
  httpGet : String → Nat × String

/-- The function `read_in_schema`: prefer the local file named by `SCHEMA_FILE` when
the variable is set and the file exists; otherwise GET the URI, return
the body on status 200 and raise `ValueError` (message plus the status
code argument, as in the source's two-argument `raise`) otherwise. -/
def read_in_schema (env : SchemaEnv) (uri : String) : Except (String × Nat) String :=
  match env.schemaFileVar with
  | some f =>
    if env.fileExists f then .ok (env.fileContents f)
    else
      let r := env.httpGet uri
      if r.1 == 200 then .ok r.2
      else .error ("Unable to retrieve schema from URI, response was %s", r.1)
  | none =>
    let r := env.httpGet uri
    if r.1 == 200 then .ok r.2
    else .error ("Unable to retrieve schema from URI, response was %s", r.1)

/-- Configuration a setup run depends on: whether the `SensorFlows`
registry bucket already exists, whether TLS is enabled, whether the
`Default NiFi SSL Context Service` controller exists, and the
`skip_cdsw` flag recorded by `before_setup`. -/
structure LabConfig where
  bucketExists : Bool
  tlsEnabled : Bool
  sslSvcExists : Bool
  skipCdsw : Bool

/-- Trace of `lab1_register_schema`: one `schreg.create_schema` call
(its schema-text argument comes from `read_in_schema`, modelled above). -/
def lab1Trace : List Ev :=
  [Ev.createSchema "SensorReading"]

/-- Modelled from the spec: `kafka.get_common_client_properties` lives in
the `utils.kafka` helper module, which is not part of the source tree
here.  Per the spec it supplies Kafka *client configuration* for the
processor property maps; it issues no remote operation, so it contributes
no event. -/
def kafkaCommonClientPropsEvents : List Ev := []

/-- Trace of `lab2_nifi_flow` (each helper / SDK call as its event, in
source order; `nf.create_controller` and `nf.create_processor` are the
helper-module wrappers that create the named component). -/
def lab2Trace (cfg : LabConfig) : List Ev :=
  [Ev.getRegistryBucket "SensorFlows"] ++
  (if cfg.bucketExists then [] else [Ev.createRegistryBucket "SensorFlows"]) ++
  [Ev.createRegistryClient "NiFi Registry",
   Ev.createProcessGroup "Process Sensor Data",
   Ev.saveFlowVer] ++
  (if cfg.tlsEnabled then
    (if cfg.sslSvcExists then
      [Ev.getController "Default NiFi SSL Context Service",
       Ev.scheduleCtrl "Default NiFi SSL Context Service" false,
       Ev.getController "Default NiFi SSL Context Service",
       Ev.updateController "Default NiFi SSL Context Service",
       Ev.getController "Default NiFi SSL Context Service",
       Ev.scheduleCtrl "Default NiFi SSL Context Service" true]
     else
      [Ev.getController "Default NiFi SSL Context Service",
       Ev.createController "org.apache.nifi.ssl.StandardRestrictedSSLContextService"]) ++
    [Ev.getController "Default NiFi SSL Context Service",
     Ev.createController "org.apache.nifi.kerberos.KeytabCredentialsService"]
   else []) ++
  [Ev.createController "org.apache.nifi.schemaregistry.hortonworks.HortonworksSchemaRegistry",
   Ev.createController "org.apache.nifi.json.JsonTreeReader",
   Ev.createController "org.apache.nifi.json.JsonRecordSetWriter",
   Ev.createController "org.apache.nifi.avro.AvroRecordSetWriter",
   Ev.createPort "Sensor Data",
   Ev.createProcessor "Set Schema Name" none,
   Ev.createConnection] ++
  kafkaCommonClientPropsEvents ++
  [Ev.createProcessor "Publish to Kafka topic: iot" (some "iot"),
   Ev.createConnection,
   Ev.createFunnel,
   Ev.createConnection,
   Ev.saveFlowVer,
   Ev.schedulePg true,
   Ev.updateConnection,
   Ev.scheduleComponents]

/-- Trace of `lab4_rest_and_kudu`.  The two variable-registry updates and
the two CDSW key calls run only when `skip_cdsw` was not set (the
argument `cdsw.get_model_access_key()` / `cdsw.create_model_api_key()` is
evaluated before the corresponding `update_variable_registry` call). -/
def lab4Trace (cfg : LabConfig) : List Ev :=
  [Ev.kuduCreateTable] ++
  (if cfg.skipCdsw then []
   else
    [Ev.cdswGetModelAccessKey,
     Ev.updateVariableRegistry "cdsw.access.key",
     Ev.cdswCreateModelApiKey,
     Ev.updateVariableRegistry "cdsw.model.api.key"]) ++
  [Ev.createController "org.apache.nifi.json.JsonTreeReader",
   Ev.createController "org.apache.nifi.lookup.RestLookupService",
   Ev.createFunnel] ++
  kafkaCommonClientPropsEvents ++
  [Ev.createProcessor "Consume Kafka iot messages" (some "iot"),
   Ev.createConnection,
   Ev.createProcessor "Predict machine health" none,
   Ev.createConnection,
   Ev.createConnection,
   Ev.createProcessor "Update health flag" none,
   Ev.createConnection,
   Ev.createConnection,
   Ev.createProcessor "Write to Kudu" none,
   Ev.createConnection,
   Ev.createConnection] ++
  kafkaCommonClientPropsEvents ++
  [Ev.createProcessor "Publish to Kafka topic: iot_enriched" (some "iot_enriched"),
   Ev.createConnection] ++
  kafkaCommonClientPropsEvents ++
  [Ev.createProcessor "Publish to Kafka topic: iot_enriched_avro" (some "iot_enriched_avro"),
   Ev.createConnection,
   Ev.createProcessor "Monitor Activity" none,
   Ev.createConnection,
   Ev.createConnection,
   Ev.saveFlowVer,
   Ev.schedulePg true]

/-- All events a setup run issues across the labs of this workshop. -/
def setupTrace (cfg : LabConfig) : List Ev :=
  lab1Trace ++ lab2Trace cfg ++ lab4Trace cfg

/-- The pass oracle raises no non-`ApiException` on the given controllers. -/
def noOther (s : String → Except PyExc Unit) (cs : List Controller) : Prop :=
  ∀ c ∈ cs, ∀ n, s c.id ≠ .error (.other n)

/-- Some controller reported the 409 'is referenced by' conflict in pass `k`. -/
def conflictAt (sched : Nat → String → Except PyExc Unit) (cs : List Controller)
    (k : Nat) : Bool :=
  cs.any fun c => isConflictErr (sched k c.id)

/-- Exactly `n` identical retry passes, each attempting to stop every controller. -/
def passTraceRep (cs : List Controller) : Nat → List Ev
  | 0 => []
  | n + 1 => (cs.map fun c => Ev.scheduleCtrl c.id false) ++ passTraceRep cs n

lemma teardownPass_eq_of_noOther (s : String → Except PyExc Unit)
    (cs : List Controller) (h : noOther s cs) :
    teardownPass s cs = (cs.map fun c => Ev.scheduleCtrl c.id false,
      .ok (cs.any fun c => isConflictErr (s c.id))) := by
  induction cs with
  | nil => rfl
  | cons c rest ih =>
    have h2 : noOther s rest := fun d hd => h d (List.mem_cons_of_mem _ hd)
    rcases hc : s c.id with e | u
    · cases e with
      | apiException st body =>
        simp [teardownPass, hc, ih h2, isConflictErr, Except.map]
      | other n => exact absurd hc (h c (List.mem_cons_self c rest) n)
    · simp [teardownPass, hc, ih h2, isConflictErr]

lemma teardownLoop_eq_clean (sched : Nat → String → Except PyExc Unit)
    (cs : List Controller) (h : ∀ k, noOther (sched k) cs) :
    ∀ fuel k m, m < fuel → conflictAt sched cs (k + m) = false →
      (∀ j, j < m → conflictAt sched cs (k + j) = true) →
      teardownLoop sched cs fuel k = (passTraceRep cs (m + 1), .exited)
  | 0, _, m, hm, _, _ => absurd hm (Nat.not_lt_zero m)
  | fuel + 1, k, 0, _, hclean, _ => by
    have hA : (cs.any fun c => isConflictErr (sched k c.id)) = false := hclean
    simp [teardownLoop, teardownPass_eq_of_noOther (sched k) cs (h k), hA,
      passTraceRep]
  | fuel + 1, k, m + 1, hm, hclean, hconf => by
    have hA : (cs.any fun c => isConflictErr (sched k c.id)) = true :=
      hconf 0 (Nat.succ_pos m)
    have hclean2 : conflictAt sched cs (k + 1 + m) = false := by
      have e : k + 1 + m = k + (m + 1) := by omega
      rw [e]; exact hclean
    have hconf2 : ∀ j, j < m → conflictAt sched cs (k + 1 + j) = true := by
      intro j hj
      have e : k + 1 + j = k + (j + 1) := by omega
      rw [e]; exact hconf (j + 1) (Nat.succ_lt_succ hj)
    have ih := teardownLoop_eq_clean sched cs h fuel (k + 1) m
      (Nat.lt_of_succ_lt_succ hm) hclean2 hconf2
    simp [teardownLoop, teardownPass_eq_of_noOther (sched k) cs (h k), hA, ih,
      passTraceRep]

lemma teardownLoop_exited_first (sched : Nat → String → Except PyExc Unit)
    (cs : List Controller) (h : ∀ k, noOther (sched k) cs) :
    ∀ fuel k, (teardownLoop sched cs fuel k).2 = .exited →
      ∃ m, m < fuel ∧ conflictAt sched cs (k + m) = false ∧
        ∀ j, j < m → conflictAt sched cs (k + j) = true
  | 0, k, hx => by simp [teardownLoop] at hx
  | fuel + 1, k, hx => by
    rcases hA : (cs.any fun c => isConflictErr (sched k c.id)) with _ | _
    · exact ⟨0, Nat.succ_pos fuel, hA,
        fun j hj => absurd hj (Nat.not_lt_zero j)⟩
    · have hx2 : (teardownLoop sched cs fuel (k + 1)).2 = .exited := by
        simpa [teardownLoop, teardownPass_eq_of_noOther (sched k) cs (h k), hA]
          using hx
      obtain ⟨m, hm, hclean, hconf⟩ :=
        teardownLoop_exited_first sched cs h fuel (k + 1) hx2
      refine ⟨m + 1, Nat.succ_lt_succ hm, ?_, ?_⟩
      · have e : k + (m + 1) = k + 1 + m := by omega
        rw [e]; exact hclean
      · intro j hj
        cases j with
        | zero => exact hA
        | succ i =>
          have e : k + (i + 1) = k + 1 + i := by omega
          rw [e]; exact hconf i (Nat.lt_of_succ_lt_succ hj)

lemma teardownLoop_fuelOut_iff (sched : Nat → String → Except PyExc Unit)
    (cs : List Controller) (h : ∀ k, noOther (sched k) cs) :
    ∀ fuel k, ((teardownLoop sched cs fuel k).2 = .fuelOut ↔
      ∀ j, j < fuel → conflictAt sched cs (k + j) = true)
  | 0, k => by simp [teardownLoop]
  | fuel + 1, k => by
    rcases hA : (cs.any fun c => isConflictErr (sched k c.id)) with _ | _
    · constructor
      · intro hx
        simp [teardownLoop, teardownPass_eq_of_noOther (sched k) cs (h k), hA]
          at hx
      · intro hall
        have h0 : (cs.any fun c => isConflictErr (sched k c.id)) = true :=
          hall 0 (Nat.succ_pos fuel)
        rw [h0] at hA
        cases hA
    · have ih := teardownLoop_fuelOut_iff sched cs h fuel (k + 1)
      have hred : (teardownLoop sched cs (fuel + 1) k).2 =
          (teardownLoop sched cs fuel (k + 1)).2 := by
        simp [teardownLoop, teardownPass_eq_of_noOther (sched k) cs (h k), hA]
      rw [hred, ih]
      constructor
      · intro hall j hj
        cases j with
        | zero => exact hA
        | succ i =>
          have e : k + (i + 1) = k + 1 + i := by omega
          rw [e]; exact hall i (Nat.lt_of_succ_lt_succ hj)
      · intro hall j hj
        have e : k + 1 + j = k + (j + 1) := by omega
        rw [e]; exact hall (j + 1) (Nat.succ_lt_succ hj)

lemma teardownPass_events (s : String → Except PyExc Unit) :
    ∀ cs : List Controller, ∀ ev ∈ (teardownPass s cs).1,
      ∃ cid, ev = Ev.scheduleCtrl cid false
  | [], ev, hm => by simp [teardownPass] at hm
  | c :: rest, ev, hm => by
    rcases hc : s c.id with e | u
    · cases e with
      | apiException st body =>
        simp only [teardownPass, hc, List.mem_cons] at hm
        rcases hm with hm | hm
        · exact ⟨c.id, hm⟩
        · exact teardownPass_events s rest ev hm
      | other n =>
        simp only [teardownPass, hc, List.mem_singleton] at hm
        exact ⟨c.id, hm⟩
    · simp only [teardownPass, hc, List.mem_cons] at hm
      rcases hm with hm | hm
      · exact ⟨c.id, hm⟩
      · exact teardownPass_events s rest ev hm

lemma teardownLoop_events (sched : Nat → String → Except PyExc Unit)
    (cs : List Controller) :
    ∀ fuel k, ∀ ev ∈ (teardownLoop sched cs fuel k).1,
      ∃ cid, ev = Ev.scheduleCtrl cid false
  | 0, k, ev, hm => by simp [teardownLoop] at hm
  | fuel + 1, k, ev, hm => by
    rcases hp : (teardownPass (sched k) cs).2 with e | b
    · simp only [teardownLoop, hp] at hm
      exact teardownPass_events (sched k) cs ev hm
    · cases b with
      | true =>
        simp only [teardownLoop, hp, List.mem_append] at hm
        rcases hm with hm | hm
        · exact teardownPass_events (sched k) cs ev hm
        · exact teardownLoop_events sched cs fuel (k + 1) ev hm
      | false =>
        simp only [teardownLoop, hp] at hm
        exact teardownPass_events (sched k) cs ev hm

lemma mem_seqCall {ev e : Ev} {r : Except PyExc Unit} {k : List Ev × TdOutcome}
    (h : ev ∈ (seqCall e r k).1) : ev = e ∨ ev ∈ k.1 := by
  rcases r with x | u <;> simp [seqCall] at h <;> tauto

/-- Every event the teardown tail can emit, in any world. -/
def tailEvSet : List Ev :=
  [Ev.nfDeleteAll, Ev.efmDeleteAll, Ev.schregDeleteAllSchemas,
   Ev.getRegistryClient "NiFi Registry", Ev.deleteRegistryClient "NiFi Registry",
   Ev.nifiregDeleteFlows "SensorFlows", Ev.kuduDropTable,
   Ev.cdswDeleteAllModelApiKeys]

lemma teardownTail_events (w : TeardownWorld) :
    ∀ ev ∈ (teardownTail w).1, ev ∈ tailEvSet := by
  intro ev hm
  unfold teardownTail at hm
  rcases mem_seqCall hm with h | hm
  · simp [tailEvSet, h]
  rcases mem_seqCall hm with h | hm
  · simp [tailEvSet, h]
  rcases mem_seqCall hm with h | hm
  · simp [tailEvSet, h]
  rcases hg : w.getRegClientR with e | b
  · rw [hg] at hm
    simp only [List.mem_singleton] at hm
    simp [tailEvSet, hm]
  · rw [hg] at hm
    rcases b with _ | _
    · simp only [Bool.false_eq_true, if_false, List.mem_cons] at hm
      rcases hm with h | hm
      · simp [tailEvSet, h]
      rcases mem_seqCall hm with h | hm
      · simp [tailEvSet, h]
      rcases mem_seqCall hm with h | hm
      · simp [tailEvSet, h]
      rcases mem_seqCall hm with h | hm
      · simp [tailEvSet, h]
      · simp at hm
    · simp only [if_true, List.mem_cons] at hm
      rcases hm with h | hm
      · simp [tailEvSet, h]
      rcases mem_seqCall hm with h | hm
      · simp [tailEvSet, h]
      rcases mem_seqCall hm with h | hm
      · simp [tailEvSet, h]
      rcases mem_seqCall hm with h | hm
      · simp [tailEvSet, h]
      rcases mem_seqCall hm with h | hm
      · simp [tailEvSet, h]
      · simp at hm

lemma teardown_completed (w : TeardownWorld) (fuel : Nat)
    (h : (teardown w fuel).2 = .completed) :
    (teardownLoop w.sched w.controllers fuel 0).2 = .exited ∧
    (teardownTail w).2 = .completed ∧
    (teardown w fuel).1 =
      Ev.schedulePg false :: (teardownLoop w.sched w.controllers fuel 0).1 ++
        (teardownTail w).1 := by
  rcases hpg : w.schedulePgR with e | u
  · simp [teardown, hpg] at h
  · rcases hlp : (teardownLoop w.sched w.controllers fuel 0).2 with _ | e | _
    · exact ⟨rfl, by simpa [teardown, hpg, hlp] using h,
        by simp [teardown, hpg, hlp]⟩
    · simp [teardown, hpg, hlp] at h
    · simp [teardown, hpg, hlp] at h

lemma teardownTail_completed (w : TeardownWorld)
    (h : (teardownTail w).2 = .completed) :
    (teardownTail w).1 =
      [Ev.nfDeleteAll, Ev.efmDeleteAll, Ev.schregDeleteAllSchemas,
       Ev.getRegistryClient "NiFi Registry"] ++
      (if regClientFound w then [Ev.deleteRegistryClient "NiFi Registry"]
       else []) ++
      [Ev.nifiregDeleteFlows "SensorFlows", Ev.kuduDropTable,
       Ev.cdswDeleteAllModelApiKeys] := by
  obtain ⟨cs, sd, rpg, ra, rb, rc, rg, rd, rf, rk, rx⟩ := w
  rcases rg with eg | bg
  · rcases ra with e | u <;> rcases rb with e2 | u2 <;> rcases rc with e3 | u3 <;>
      simp_all [teardownTail, seqCall]
  · rcases bg with _ | _ <;> rcases ra with e | u <;> rcases rb with e2 | u2 <;>
      rcases rc with e3 | u3 <;> rcases rd with e4 | u4 <;>
      rcases rf with e5 | u5 <;> rcases rk with e6 | u6 <;>
      rcases rx with e7 | u7 <;>
      simp_all [teardownTail, seqCall, regClientFound]

/-- A sample controller service. -/
def ctrl0 : Controller := ⟨"c0", "Controller Zero"⟩

/-- Pass oracle on which every stop attempt reports the 409
'is referenced by' conflict, on every pass. -/
def conflictSched : Nat → String → Except PyExc Unit :=
  fun _ _ => .error (.apiException 409 "Controller is referenced by a component")

/-- Pass oracle on which every stop attempt succeeds. -/
def okSched : Nat → String → Except PyExc Unit := fun _ _ => .ok ()

/-- Pass oracle that conflicts on pass 0 and succeeds afterwards. -/
def lateSched : Nat → String → Except PyExc Unit :=
  fun k _ =>
    if k = 0 then .error (.apiException 409 "is referenced by") else .ok ()

/-- World where every remote call succeeds and a registry client exists. -/
def wOk : TeardownWorld :=
  ⟨[ctrl0], okSched, .ok (), .ok (), .ok (), .ok (), .ok true, .ok (),
   .ok (), .ok (), .ok ()⟩

/-- World where `schedule_controller` always raises ApiException 500 and
every other call succeeds. -/
def w500 : TeardownWorld :=
  ⟨[ctrl0], fun _ _ => .error (.apiException 500 "Internal Server Error"),
   .ok (), .ok (), .ok (), .ok (), .ok true, .ok (), .ok (), .ok (), .ok ()⟩

/-- World where `nf.delete_all` raises a RuntimeError. -/
def wDeleteFails : TeardownWorld :=
  ⟨[ctrl0], okSched, .ok (), .error (.other "RuntimeError"), .ok (), .ok (),
   .ok true, .ok (), .ok (), .ok (), .ok ()⟩

lemma conflictSched_pass (k : Nat) :
    teardownPass (conflictSched k) [ctrl0] =
      ([Ev.scheduleCtrl "c0" false], .ok true) := rfl

lemma conflictSched_fuelOut :
    ∀ fuel k, (teardownLoop conflictSched [ctrl0] fuel k).2 = .fuelOut
  | 0, _ => rfl
  | fuel + 1, k => by
    simp only [teardownLoop, conflictSched_pass k]
    exact conflictSched_fuelOut fuel (k + 1)

lemma passFailed_error (s : String → Except PyExc Unit) :
    ∀ cs e, passFailed s cs = .error e → ∃ n, e = .other n
  | [], e, h => by simp [passFailed, teardownPass] at h
  | c :: rest, e, h => by
    rcases hc : s c.id with e2 | u
    · cases e2 with
      | apiException st body =>
        simp only [passFailed, teardownPass, hc] at h
        rcases hr : (teardownPass s rest).2 with e3 | b
        · rw [hr] at h
          simp only [Except.map] at h
          injection h with h2
          exact h2 ▸ passFailed_error s rest e3 hr
        · rw [hr] at h
          simp [Except.map] at h
      | other n =>
        simp only [passFailed, teardownPass, hc] at h
        injection h with h2
        exact ⟨n, h2.symm⟩
    · simp only [passFailed, teardownPass, hc] at h
      exact passFailed_error s rest e h

lemma teardownLoop_raised_other (sched : Nat → String → Except PyExc Unit)
    (cs : List Controller) :
    ∀ fuel k e, (teardownLoop sched cs fuel k).2 = .raised e →
      ∃ n, e = .other n
  | 0, _, e, h => by simp [teardownLoop] at h
  | fuel + 1, k, e, h => by
    rcases hp : (teardownPass (sched k) cs).2 with e2 | b
    · simp only [teardownLoop, hp] at h
      injection h with h2
      exact h2 ▸ passFailed_error (sched k) cs e2 hp
    · cases b with
      | false =>
        simp only [teardownLoop, hp] at h
        cases h
      | true =>
        simp only [teardownLoop, hp] at h
        exact teardownLoop_raised_other sched cs fuel (k + 1) e h

/-- C1: the teardown retry loop exits exactly after the first complete
pass over the controllers in which no `schedule_controller(c, False)`
call raised the HTTP 409 'is referenced by' conflict (every earlier pass
recorded such a conflict); and while passes record conflicts the loop
repeats, its trace re-attempting a stop of every controller on each of
the `m + 1` passes run. -/
theorem teardown_loop_exits_on_clean_pass
    (sched : Nat → String → Except PyExc Unit) (cs : List Controller)
    (fuel : Nat) (h : ∀ k, noOther (sched k) cs) :
    ((teardownLoop sched cs fuel 0).2 = .exited ↔
      ∃ m, m < fuel ∧ conflictAt sched cs m = false ∧
        ∀ j, j < m → conflictAt sched cs j = true) ∧
    (∀ m, m < fuel → conflictAt sched cs m = false →
      (∀ j, j < m → conflictAt sched cs j = true) →
      (teardownLoop sched cs fuel 0).1 = passTraceRep cs (m + 1)) := by
  constructor
  · constructor
    · intro hx
      obtain ⟨m, hm, hc, hconf⟩ := teardownLoop_exited_first sched cs h fuel 0 hx
      exact ⟨m, hm, by simpa using hc, fun j hj => by simpa using hconf j hj⟩
    · rintro ⟨m, hm, hc, hconf⟩
      have he := teardownLoop_eq_clean sched cs h fuel 0 m hm
        (by simpa using hc) (fun j hj => by simpa using hconf j hj)
      simp [he]
  · intro m hm hc hconf
    have he := teardownLoop_eq_clean sched cs h fuel 0 m hm
      (by simpa using hc) (fun j hj => by simpa using hconf j hj)
    simp [he]

lemma lateSched_noOther : ∀ k, noOther (lateSched k) [ctrl0] := by
  intro k c _ n
  by_cases hk : k = 0 <;> simp [lateSched, hk]

/-- Witness for C1 at the oracle that conflicts on pass 0 and succeeds
afterwards, with one controller and fuel 2. -/
theorem teardown_loop_exits_on_clean_pass_witness :
    (∀ k, noOther (lateSched k) [ctrl0]) ∧
    (((teardownLoop lateSched [ctrl0] 2 0).2 = .exited ↔
      ∃ m, m < 2 ∧ conflictAt lateSched [ctrl0] m = false ∧
        ∀ j, j < m → conflictAt lateSched [ctrl0] j = true) ∧
    (∀ m, m < 2 → conflictAt lateSched [ctrl0] m = false →
      (∀ j, j < m → conflictAt lateSched [ctrl0] j = true) →
      (teardownLoop lateSched [ctrl0] 2 0).1 = passTraceRep [ctrl0] (m + 1))) :=
  ⟨lateSched_noOther,
   teardown_loop_exits_on_clean_pass lateSched [ctrl0] 2 lateSched_noOther⟩

/-- C2 counterexample: no iteration bound suffices for the loop — on the
oracle where every pass conflicts, the loop is still running after `N`
passes, for every `N`. -/
theorem teardown_loop_not_bounded :
    ¬ ∃ N, (teardownLoop conflictSched [ctrl0] N 0).2 ≠ .fuelOut := by
  rintro ⟨N, hN⟩
  exact hN (conflictSched_fuelOut N 0)

/-- C2 (amended): the teardown retry loop is not bounded; it keeps
iterating exactly as long as every pass records the 409 conflict (so on
the always-conflicting oracle it exceeds every iteration bound), and
terminates only upon a conflict-free pass. -/
theorem teardown_loop_runs_while_conflicts
    (sched : Nat → String → Except PyExc Unit) (cs : List Controller)
    (fuel : Nat) (h : ∀ k, noOther (sched k) cs) :
    ((teardownLoop sched cs fuel 0).2 = .fuelOut ↔
      ∀ j, j < fuel → conflictAt sched cs j = true) ∧
    (∀ n, (teardownLoop conflictSched [ctrl0] n 0).2 = .fuelOut) := by
  have hiff := teardownLoop_fuelOut_iff sched cs h fuel 0
  simp only [Nat.zero_add] at hiff
  exact ⟨hiff, fun n => conflictSched_fuelOut n 0⟩

lemma okSched_noOther : ∀ k, noOther (okSched k) [ctrl0] := by
  intro k c _ n
  simp [okSched]

/-- Witness for C2's amended statement at the all-ok oracle with fuel 2. -/
theorem teardown_loop_runs_while_conflicts_witness :
    (∀ k, noOther (okSched k) [ctrl0]) ∧
    (((teardownLoop okSched [ctrl0] 2 0).2 = .fuelOut ↔
      ∀ j, j < 2 → conflictAt okSched [ctrl0] j = true) ∧
    (∀ n, (teardownLoop conflictSched [ctrl0] n 0).2 = .fuelOut)) :=
  ⟨okSched_noOther,
   teardown_loop_runs_while_conflicts okSched [ctrl0] 2 okSched_noOther⟩

/-- C3 counterexample: an `ApiException` with status 500 raised by
`schedule_controller` does not propagate — the `except` clause catches
it, the pass ends with `failed = False`, and teardown completes. -/
theorem teardown_swallows_foreign_api_exception :
    w500.sched 0 "c0" = .error (.apiException 500 "Internal Server Error") ∧
    passFailed (w500.sched 0) [ctrl0] = .ok false ∧
    (teardown w500 1).2 = .completed :=
  ⟨rfl, rfl, rfl⟩

/-- C3 (amended): during teardown the only locally handled exceptions
are `ApiException`s from `schedule_controller` — the 409
'is referenced by' case marks the pass failed and any other
`ApiException` is silently ignored, so no `ApiException` ever escapes the
retry loop; a non-`ApiException` from `schedule_controller` propagates
out of the pass; and an exception from a later teardown call (here
`nf.delete_all`) aborts teardown with the remaining steps not issued. -/
theorem teardown_exception_handling :
    (∀ sched cs fuel k st body,
      (teardownLoop sched cs fuel k).2 ≠ .raised (.apiException st body)) ∧
    (∀ s (cs : List Controller) (c : Controller) n,
      s c.id = .error (.other n) →
      passFailed s (c :: cs) = .error (.other n)) ∧
    (∀ w fuel e, w.schedulePgR = .ok () →
      (teardownLoop w.sched w.controllers fuel 0).2 = .exited →
      w.nfDeleteAllR = .error e →
      (teardown w fuel).2 = .raised e ∧
      Ev.efmDeleteAll ∉ (teardown w fuel).1 ∧
      Ev.kuduDropTable ∉ (teardown w fuel).1) := by
  refine ⟨?_, ?_, ?_⟩
  · intro sched cs fuel k st body hcontra
    obtain ⟨n, hn⟩ := teardownLoop_raised_other sched cs fuel k _ hcontra
    cases hn
  · intro s cs c n hc
    simp [passFailed, teardownPass, hc]
  · intro w fuel e hpg hex hnf
    have htail : teardownTail w = ([Ev.nfDeleteAll], .raised e) := by
      simp [teardownTail, seqCall, hnf]
    have htd : teardown w fuel =
        (Ev.schedulePg false ::
          (teardownLoop w.sched w.controllers fuel 0).1 ++ [Ev.nfDeleteAll],
         .raised e) := by
      simp [teardown, hpg, hex, htail]
    refine ⟨by simp [htd], ?_, ?_⟩
    · intro hm
      rw [htd] at hm
      simp only [List.mem_cons, List.mem_append, List.mem_singleton] at hm
      rcases hm with (hm | hm) | (hm | hm)
      · cases hm
      · obtain ⟨cid, hc⟩ :=
          teardownLoop_events w.sched w.controllers fuel 0 _ hm
        cases hc
      · cases hm
      · cases hm
    · intro hm
      rw [htd] at hm
      simp only [List.mem_cons, List.mem_append, List.mem_singleton] at hm
      rcases hm with (hm | hm) | (hm | hm)
      · cases hm
      · obtain ⟨cid, hc⟩ :=
          teardownLoop_events w.sched w.controllers fuel 0 _ hm
        cases hc
      · cases hm
      · cases hm

/-- Witness for C3's amended statement: in the world where
`nf.delete_all` raises a RuntimeError, teardown aborts with it and never
issues `efm.delete_all` or `kudu.drop_table`. -/
theorem teardown_exception_handling_witness :
    (wDeleteFails.schedulePgR = .ok () ∧
     (teardownLoop wDeleteFails.sched wDeleteFails.controllers 1 0).2 =
       .exited ∧
     wDeleteFails.nfDeleteAllR = .error (.other "RuntimeError")) ∧
    ((teardown wDeleteFails 1).2 = .raised (.other "RuntimeError") ∧
     Ev.efmDeleteAll ∉ (teardown wDeleteFails 1).1 ∧
     Ev.kuduDropTable ∉ (teardown wDeleteFails 1).1) :=
  ⟨⟨rfl, rfl, rfl⟩,
   teardown_exception_handling.2.2 wDeleteFails 1 (.other "RuntimeError")
     rfl rfl rfl⟩

/-- C4: on every completed execution, teardown issues its operations in
one fixed sequence: stop the root process group, run the controller-stop
retry loop, then `nf.delete_all`, `efm.delete_all`,
`schreg.delete_all_schemas`, the registry-client lookup with its
conditional deletion, `nifireg.delete_flows('SensorFlows')`,
`kudu.drop_table()`, `cdsw.delete_all_model_api_keys()` — each issued
only after its predecessor returned. -/
theorem teardown_fixed_sequence (w : TeardownWorld) (fuel : Nat)
    (h : (teardown w fuel).2 = .completed) :
    (teardown w fuel).1 =
      Ev.schedulePg false :: (teardownLoop w.sched w.controllers fuel 0).1 ++
      ([Ev.nfDeleteAll, Ev.efmDeleteAll, Ev.schregDeleteAllSchemas,
        Ev.getRegistryClient "NiFi Registry"] ++
       (if regClientFound w then [Ev.deleteRegistryClient "NiFi Registry"]
        else []) ++
       [Ev.nifiregDeleteFlows "SensorFlows", Ev.kuduDropTable,
        Ev.cdswDeleteAllModelApiKeys]) := by
  obtain ⟨hex, htc, htr⟩ := teardown_completed w fuel h
  rw [htr, teardownTail_completed w htc]

/-- Witness for C4 in the all-ok world with one controller and fuel 1. -/
theorem teardown_fixed_sequence_witness :
    (teardown wOk 1).2 = .completed ∧
    (teardown wOk 1).1 =
      Ev.schedulePg false :: (teardownLoop wOk.sched wOk.controllers 1 0).1 ++
      ([Ev.nfDeleteAll, Ev.efmDeleteAll, Ev.schregDeleteAllSchemas,
        Ev.getRegistryClient "NiFi Registry"] ++
       (if regClientFound wOk then [Ev.deleteRegistryClient "NiFi Registry"]
        else []) ++
       [Ev.nifiregDeleteFlows "SensorFlows", Ev.kuduDropTable,
        Ev.cdswDeleteAllModelApiKeys]) :=
  ⟨rfl, teardown_fixed_sequence wOk 1 rfl⟩

/-- C5: the retry loop inserts no delay — no `sleep` operation appears
anywhere in any teardown trace — and imposes no attempt limit: on the
always-conflicting oracle the loop is still retrying after `n` passes,
for every `n`. -/
theorem teardown_no_backoff_no_timeout :
    (∀ w fuel ms, Ev.sleep ms ∉ (teardown w fuel).1) ∧
    (∀ n, (teardownLoop conflictSched [ctrl0] n 0).2 = .fuelOut) := by
  constructor
  · intro w fuel ms hm
    rcases hpg : w.schedulePgR with e | u
    · simp [teardown, hpg] at hm
    · rcases hlp : (teardownLoop w.sched w.controllers fuel 0).2 with _ | e | _
      · simp only [teardown, hpg, hlp] at hm
        rw [List.mem_append] at hm
        rcases hm with hm | hm
        · rw [List.mem_cons] at hm
          rcases hm with hm | hm
          · cases hm
          · obtain ⟨cid, hc⟩ :=
              teardownLoop_events w.sched w.controllers fuel 0 _ hm
            cases hc
        · have := teardownTail_events w _ hm
          simp [tailEvSet] at this
      · simp only [teardown, hpg, hlp] at hm
        rw [List.mem_cons] at hm
        rcases hm with hm | hm
        · cases hm
        · obtain ⟨cid, hc⟩ :=
            teardownLoop_events w.sched w.controllers fuel 0 _ hm
          cases hc
      · simp only [teardown, hpg, hlp] at hm
        rw [List.mem_cons] at hm
        rcases hm with hm | hm
        · cases hm
        · obtain ⟨cid, hc⟩ :=
            teardownLoop_events w.sched w.controllers fuel 0 _ hm
          cases hc
  · exact fun n => conflictSched_fuelOut n 0

lemma setupTrace_no_topic (cfg : LabConfig) (name : String) :
    Ev.createKafkaTopic name ∉ setupTrace cfg := by
  obtain ⟨b, t, s, k⟩ := cfg
  intro hm
  cases b <;> cases t <;> cases s <;> cases k <;>
    simp [setupTrace, lab1Trace, lab2Trace, lab4Trace,
      kafkaCommonClientPropsEvents] at hm

/-- C6 counterexample: no setup run issues any Kafka-topic-creation
operation, under any configuration. -/
theorem setup_never_creates_kafka_topic :
    ¬ ∃ cfg name, Ev.createKafkaTopic name ∈ setupTrace cfg :=
  fun ⟨cfg, name, hm⟩ => setupTrace_no_topic cfg name hm

/-- C6 (amended): the labs never create a Kafka topic; they only
configure NiFi processors whose `topic` property names the topics `iot`,
`iot_enriched` and `iot_enriched_avro`. -/
theorem setup_kafka_topics_only_referenced :
    (∀ cfg name, Ev.createKafkaTopic name ∉ setupTrace cfg) ∧
    (∀ cfg,
      Ev.createProcessor "Publish to Kafka topic: iot" (some "iot") ∈
        setupTrace cfg ∧
      Ev.createProcessor "Consume Kafka iot messages" (some "iot") ∈
        setupTrace cfg ∧
      Ev.createProcessor "Publish to Kafka topic: iot_enriched"
        (some "iot_enriched") ∈ setupTrace cfg ∧
      Ev.createProcessor "Publish to Kafka topic: iot_enriched_avro"
        (some "iot_enriched_avro") ∈ setupTrace cfg) := by
  refine ⟨setupTrace_no_topic, ?_⟩
  rintro ⟨b, t, s, k⟩
  refine ⟨?_, ?_, ?_, ?_⟩ <;>
    cases b <;> cases t <;> cases s <;> cases k <;>
    simp [setupTrace, lab1Trace, lab2Trace, lab4Trace,
      kafkaCommonClientPropsEvents]

/-- C7: every execution of teardown that completes calls
`kudu.drop_table()` and then `cdsw.delete_all_model_api_keys()`, exactly
once each, as the last two operations. -/
theorem teardown_kudu_cdsw_once (w : TeardownWorld) (fuel : Nat)
    (h : (teardown w fuel).2 = .completed) :
    ((teardown w fuel).1).count Ev.kuduDropTable = 1 ∧
    ((teardown w fuel).1).count Ev.cdswDeleteAllModelApiKeys = 1 ∧
    ∃ pre, (teardown w fuel).1 =
      pre ++ [Ev.kuduDropTable, Ev.cdswDeleteAllModelApiKeys] := by
  obtain ⟨hex, htc, htr⟩ := teardown_completed w fuel h
  have htail := teardownTail_completed w htc
  have hlk : Ev.kuduDropTable ∉
      (teardownLoop w.sched w.controllers fuel 0).1 := by
    intro hm
    obtain ⟨cid, hc⟩ := teardownLoop_events w.sched w.controllers fuel 0 _ hm
    cases hc
  have hlc : Ev.cdswDeleteAllModelApiKeys ∉
      (teardownLoop w.sched w.controllers fuel 0).1 := by
    intro hm
    obtain ⟨cid, hc⟩ := teardownLoop_events w.sched w.controllers fuel 0 _ hm
    cases hc
  rw [htr, htail]
  cases hrc : regClientFound w <;>
    refine ⟨?_, ?_,
      ⟨Ev.schedulePg false ::
        (teardownLoop w.sched w.controllers fuel 0).1 ++
        ([Ev.nfDeleteAll, Ev.efmDeleteAll, Ev.schregDeleteAllSchemas,
          Ev.getRegistryClient "NiFi Registry"] ++
         (if regClientFound w then [Ev.deleteRegistryClient "NiFi Registry"]
          else []) ++
         [Ev.nifiregDeleteFlows "SensorFlows"]), ?_⟩⟩ <;>
    simp [hrc, List.count_append, List.count_cons,
      List.count_eq_zero.mpr hlk, List.count_eq_zero.mpr hlc]

/-- Witness for C7 in the all-ok world with one controller and fuel 1. -/
theorem teardown_kudu_cdsw_once_witness :
    (teardown wOk 1).2 = .completed ∧
    (((teardown wOk 1).1).count Ev.kuduDropTable = 1 ∧
     ((teardown wOk 1).1).count Ev.cdswDeleteAllModelApiKeys = 1 ∧
     ∃ pre, (teardown wOk 1).1 =
       pre ++ [Ev.kuduDropTable, Ev.cdswDeleteAllModelApiKeys]) :=
  ⟨rfl, teardown_kudu_cdsw_once wOk 1 rfl⟩

/-- C8: `read_in_schema` returns the contents of the file named by
`SCHEMA_FILE` whenever the variable is set and the file exists;
otherwise it issues the HTTP GET and returns the response body exactly
when the status is 200, raising `ValueError` (with the literal message
and the status code) for every other status. -/
theorem read_in_schema_spec (env : SchemaEnv) (uri f : String) :
    (env.schemaFileVar = some f → env.fileExists f = true →
      read_in_schema env uri = .ok (env.fileContents f)) ∧
    ((env.schemaFileVar = none ∨
        (env.schemaFileVar = some f ∧ env.fileExists f = false)) →
      ((read_in_schema env uri = .ok (env.httpGet uri).2 ↔
        (env.httpGet uri).1 = 200) ∧
       ((env.httpGet uri).1 ≠ 200 →
        read_in_schema env uri =
          .error ("Unable to retrieve schema from URI, response was %s",
            (env.httpGet uri).1)))) := by
  constructor
  · intro hv hex
    simp [read_in_schema, hv, hex]
  · intro hv
    have hbranch : read_in_schema env uri =
        (if (env.httpGet uri).1 == 200 then .ok (env.httpGet uri).2
         else .error ("Unable to retrieve schema from URI, response was %s",
           (env.httpGet uri).1)) := by
      rcases hv with hv | ⟨hv, hex⟩
      · simp [read_in_schema, hv]
      · simp [read_in_schema, hv, hex]
    by_cases h200 : (env.httpGet uri).1 = 200 <;>
      simp [hbranch, h200, beq_iff_eq]

/-- A sample environment for `read_in_schema` with `SCHEMA_FILE` set to
an existing file. -/
def schemaEnv0 : SchemaEnv :=
  ⟨some "f", fun _ => true, fun _ => "schema", fun _ => (500, "oops")⟩

/-- Witness for C8: with `SCHEMA_FILE` set and existing, the file
contents are returned even though the HTTP GET would fail. -/
theorem read_in_schema_spec_witness :
    schemaEnv0.schemaFileVar = some "f" ∧
    schemaEnv0.fileExists "f" = true ∧
    read_in_schema schemaEnv0 "u" = .ok "schema" :=
  ⟨rfl, rfl, (read_in_schema_spec schemaEnv0 "u" "f").1 rfl rfl⟩

/-- C9: when the `SensorFlows` bucket already exists, `lab2_nifi_flow`
reuses it — it issues the `get_registry_bucket` lookup but no
`create_registry_bucket` call, so no second bucket is ever created. -/
theorem lab2_bucket_idempotent (cfg : LabConfig)
    (h : cfg.bucketExists = true) :
    (∀ name, Ev.createRegistryBucket name ∉ lab2Trace cfg) ∧
    Ev.getRegistryBucket "SensorFlows" ∈ lab2Trace cfg := by
  obtain ⟨b, t, s, k⟩ := cfg
  have hb : b = true := h
  subst hb
  constructor
  · intro name hm
    cases t <;> cases s <;>
      simp [lab2Trace, kafkaCommonClientPropsEvents] at hm
  · cases t <;> cases s <;>
      simp [lab2Trace, kafkaCommonClientPropsEvents]

/-- Witness for C9 at a configuration where the bucket exists. -/
theorem lab2_bucket_idempotent_witness :
    (LabConfig.mk true false false false).bucketExists = true ∧
    ((∀ name, Ev.createRegistryBucket name ∉
        lab2Trace (LabConfig.mk true false false false)) ∧
     Ev.getRegistryBucket "SensorFlows" ∈
        lab2Trace (LabConfig.mk true false false false)) :=
  ⟨rfl, lab2_bucket_idempotent (LabConfig.mk true false false false) rfl⟩

/-- C10: when `SKIP_CDSW` is set in the environment `before_setup`
records, `lab4_rest_and_kudu` performs no variable-registry update and
no CDSW key call, yet every completed teardown still issues
`cdsw.delete_all_model_api_keys()`. -/
theorem skip_cdsw_asymmetry (envv : List (String × String))
    (cfg : LabConfig) (w : TeardownWorld) (fuel : Nat)
    (h1 : skip_cdsw envv = true) (h2 : cfg.skipCdsw = skip_cdsw envv)
    (h3 : (teardown w fuel).2 = .completed) :
    (∀ key, Ev.updateVariableRegistry key ∉ lab4Trace cfg) ∧
    Ev.cdswGetModelAccessKey ∉ lab4Trace cfg ∧
    Ev.cdswCreateModelApiKey ∉ lab4Trace cfg ∧
    Ev.cdswDeleteAllModelApiKeys ∈ (teardown w fuel).1 := by
  have hskip : cfg.skipCdsw = true := by rw [h2, h1]
  obtain ⟨b, t, s, k⟩ := cfg
  have hk : k = true := hskip
  subst hk
  obtain ⟨hex, htc, htr⟩ := teardown_completed w fuel h3
  have htail := teardownTail_completed w htc
  refine ⟨?_, ?_, ?_, ?_⟩
  · intro key hm
    simp [lab4Trace, kafkaCommonClientPropsEvents] at hm
  · intro hm
    simp [lab4Trace, kafkaCommonClientPropsEvents] at hm
  · intro hm
    simp [lab4Trace, kafkaCommonClientPropsEvents] at hm
  · rw [htr, htail]
    cases hrc : regClientFound w <;> simp [hrc]

/-- Witness for C10: `SKIP_CDSW` present, skip recorded, all-ok world. -/
theorem skip_cdsw_asymmetry_witness :
    (skip_cdsw [("SKIP_CDSW", "1")] = true ∧
     (LabConfig.mk true false false true).skipCdsw =
       skip_cdsw [("SKIP_CDSW", "1")] ∧
     (teardown wOk 1).2 = .completed) ∧
    ((∀ key, Ev.updateVariableRegistry key ∉
        lab4Trace (LabConfig.mk true false false true)) ∧
     Ev.cdswGetModelAccessKey ∉ lab4Trace (LabConfig.mk true false false true) ∧
     Ev.cdswCreateModelApiKey ∉ lab4Trace (LabConfig.mk true false false true) ∧
     Ev.cdswDeleteAllModelApiKeys ∈ (teardown wOk 1).1) :=
  ⟨⟨rfl, rfl, rfl⟩,
   skip_cdsw_asymmetry [("SKIP_CDSW", "1")] (LabConfig.mk true false false true)
     wOk 1 rfl rfl rfl⟩

end WorkshopNifi
